import Mathlib

/-!
Verification development for the ParentOS backend: a shallow embedding of
the Express resource routers (`src/server/routes/appointments.js`, the
parents/notes/auth routers) and the Supabase database gateway
(`src/server/database/supabase.js`), with theorems settling the spec's
claims about validation, ownership checks, allow-listed partial updates,
and the database gateway contract.
-/

namespace ParentOS

/-! ## JSON-ish request-body values

Request bodies are JSON objects; handlers read them as `req.body[field]`.
We embed a body as an association list from field name to value.
-/

inductive JVal where
  | str (s : String)
  | bool (b : Bool)
  | num (n : Int)
  | arr (xs : List String)
  | null
deriving DecidableEq, Repr

abbrev Body := List (String × JVal)

/-- JS `req.body[field]`, `undefined` becoming `none`. -/
def bodyGet (b : Body) (field : String) : Option JVal :=
  b.lookup field

/-- Coerce a body value to the string it carries (handlers destructure
validated string fields directly; non-strings cannot reach these reads
because validation has already passed). -/
def getStr (b : Body) (field : String) : String :=
  match bodyGet b field with
  | some (JVal.str s) => s
  | _ => ""

/-! ## String validators (express-validator chains) -/

/-- Character in an inclusive range, as a regex character class `[lo-hi]`. -/
def charIn (lo hi c : Char) : Bool :=
  lo.toNat ≤ c.toNat && c.toNat ≤ hi.toNat

/-- `[0-9]` -/
def isDigitChar (c : Char) : Bool := charIn '0' '9' c

/-- Numeric value of a digit character. -/
def digitVal (c : Char) : Nat := c.toNat - '0'.toNat

/-- The appointment time validator
`matches(/^([0-1]?[0-9]|2[0-3]):[0-5][0-9]$/)` from
`src/server/routes/appointments.js` (POST line 74, PUT line 145), compiled
to a total matcher: the anchored alternation accepts either a one-digit
hour `[0-9]`, a two-digit hour `[0-1][0-9]`, or `2[0-3]`, then `:`,
then minutes `[0-5][0-9]`. -/
def timeRegexMatches (s : String) : Bool :=
  match s.toList with
  | [h, c, m1, m2] =>
      -- `[0-1]?` absent: hour is a single digit `[0-9]`
      c = ':' && isDigitChar h && charIn '0' '5' m1 && isDigitChar m2
  | [h1, h2, c, m1, m2] =>
      c = ':' &&
        (charIn '0' '1' h1 && isDigitChar h2 || h1 = '2' && charIn '0' '3' h2)
        && charIn '0' '5' m1 && isDigitChar m2
  | _ => false

/-- Modelled from the spec: "times must match 24-hour `HH:MM`" — a string
denoting a valid 24-hour wall-clock time, hour 0–23 (one or two digits,
as the validator's format string allows) and minute 0–59 (two digits).
Written independently of the regex, from the arithmetic meaning. -/
def spec24HourTime (s : String) : Bool :=
  match s.toList with
  | [h, c, m1, m2] =>
      c = ':' && isDigitChar h && isDigitChar m1 && isDigitChar m2 &&
        decide (digitVal h < 24) && decide (digitVal m1 * 10 + digitVal m2 < 60)
  | [h1, h2, c, m1, m2] =>
      c = ':' && isDigitChar h1 && isDigitChar h2 && isDigitChar m1 && isDigitChar m2 &&
        decide (digitVal h1 * 10 + digitVal h2 < 24) &&
        decide (digitVal m1 * 10 + digitVal m2 < 60)
  | _ => false

/-- The date validator `isISO8601()` with the documented `YYYY-MM-DD`
calendar-date shape (the routers' error message: "Valid date required
(YYYY-MM-DD)"): four digit year, month 01–12, day 01–31. -/
def isISO8601Date (s : String) : Bool :=
  match s.toList with
  | [y1, y2, y3, y4, '-', m1, m2, '-', d1, d2] =>
      isDigitChar y1 && isDigitChar y2 && isDigitChar y3 && isDigitChar y4 &&
      isDigitChar m1 && isDigitChar m2 && isDigitChar d1 && isDigitChar d2 &&
      decide (1 ≤ digitVal m1 * 10 + digitVal m2) &&
      decide (digitVal m1 * 10 + digitVal m2 ≤ 12) &&
      decide (1 ≤ digitVal d1 * 10 + digitVal d2) &&
      decide (digitVal d1 * 10 + digitVal d2 ≤ 31)
  | _ => false

/-- JS whitespace as removed by `trim()`. -/
def isWhitespaceChar (c : Char) : Bool :=
  c = ' ' || c = '\t' || c = '\n' || c = '\r'

/-- `trim().isLength({ min: 1 })`: non-empty after trimming leading and
trailing whitespace, which holds exactly when some character is not
whitespace. -/
def trimNonEmpty (s : String) : Bool :=
  s.toList.any fun c => !isWhitespaceChar c

/-- `[0-9a-fA-F]` -/
def isHexChar (c : Char) : Bool :=
  isDigitChar c || charIn 'a' 'f' c || charIn 'A' 'F' c

/-- `isUUID()`: the 8-4-4-4-12 hyphenated hex shape. -/
def isUUID (s : String) : Bool :=
  let cs := s.toList
  cs.length = 36 &&
    (cs.enum.all fun ci =>
      if ci.1 = 8 || ci.1 = 13 || ci.1 = 18 || ci.1 = 23 then ci.2 = '-'
      else isHexChar ci.2)

/-- JS `String.prototype.includes` on char lists. -/
def containsSub (needle : List Char) : List Char → Bool
  | [] => needle.isEmpty
  | c :: t => needle.isPrefixOf (c :: t) || containsSub needle t

/-- JS `s.includes(sub)`. -/
def strIncludes (s sub : String) : Bool := containsSub sub.toList s.toList

/-- Split a character list at a separator (`"a@b".split('@')` shape). -/
def splitAtChar (sep : Char) : List Char → List (List Char)
  | [] => [[]]
  | c :: t =>
      match splitAtChar sep t with
      | [] => if c = sep then [[], []] else [[c]]
      | h :: rest =>
          if c = sep then [] :: h :: rest else (c :: h) :: rest

/-- A minimal model of `isEmail()`: one `@` separating a non-empty local
part from a domain that is non-empty and contains a dot. (No claim
exercises the boundary of the email grammar; this captures the accepted
shape of the concrete addresses used below.) -/
def isEmail (s : String) : Bool :=
  match splitAtChar '@' s.toList with
  | [localPart, domain] =>
      !localPart.isEmpty && !domain.isEmpty && domain.contains '.'
  | _ => false

/-! ## Data model (schema from the Supabase SQL file)

Rows of `parents`, `appointments` and `medical_notes`; JSONB tag lists
become string lists, nullable columns become `Option`.
-/

structure ParentRow where
  id : String
  user_id : String
  name : String
  age : Option Int
  relationship : String
  personality : List String
  interests : List String
  challenges : List String
  communication_style : Option String
  relationship_goals : List String
  last_contact : Option String
deriving DecidableEq, Repr

structure Appointment where
  id : String
  parent_id : String
  date : String
  time : String
  doctor : String
  specialty : String
  location : String
  reason : String
  notes : String
  completed : Bool
  follow_up_needed : Bool
deriving DecidableEq, Repr

structure MedicalNote where
  id : String
  parent_id : String
  date : String
  type : String
  title : String
  content : String
deriving DecidableEq, Repr

structure DB where
  parents : List ParentRow
  appointments : List Appointment
  medical_notes : List MedicalNote
deriving DecidableEq, Repr

/-- One database round-trip issued by a handler, tagged with the verb and
the table it touches. -/
inductive DBOp where
  | sel (table : String)
  | ins (table : String)
  | upd (table : String)
  | del (table : String)
deriving DecidableEq, Repr

/-- The part of an HTTP JSON response the claims talk about: the status
code and the `error` field of the body (absent on success). -/
structure Resp where
  status : Nat
  error : Option String
deriving DecidableEq, Repr

def respOk : Resp := ⟨200, none⟩
def respCreated : Resp := ⟨201, none⟩
def respValidationFailed : Resp := ⟨400, some "Validation failed"⟩
def respNoFields : Resp := ⟨400, some "No fields to update"⟩

/-! ## Validator chains of the resource routers -/

/-- An `optional()` validator: absent field passes, present field must
satisfy the predicate. -/
def optField (b : Body) (field : String) (p : JVal → Bool) : Bool :=
  match bodyGet b field with
  | none => true
  | some v => p v

/-- A required validator: the field must be present and satisfy the
predicate. -/
def reqField (b : Body) (field : String) (p : JVal → Bool) : Bool :=
  match bodyGet b field with
  | none => false
  | some v => p v

/-- Lift a string predicate to a body value (non-strings fail). -/
def strPred (p : String → Bool) : JVal → Bool
  | JVal.str s => p s
  | _ => false

/-- `isString()` -/
def isStringV : JVal → Bool
  | JVal.str _ => true
  | _ => false

/-- `isBoolean()` on a JSON boolean. -/
def isBooleanV : JVal → Bool
  | JVal.bool _ => true
  | _ => false

/-- `isArray()` -/
def isArrayV : JVal → Bool
  | JVal.arr _ => true
  | _ => false

/-- `isInt({ min, max })` on a JSON number. -/
def isIntBetween (lo hi : Int) : JVal → Bool
  | JVal.num n => lo ≤ n && n ≤ hi
  | _ => false

/-- `isIn([...])` -/
def isInList (allowed : List String) : JVal → Bool
  | JVal.str s => allowed.contains s
  | _ => false

/-- The relationship enumeration of the parents router
(`isIn(['mom', 'dad', 'guardian'])`, the same literal list on the POST
and PUT chains) and of the `parents.relationship` CHECK constraint. -/
def parentRelationshipIsIn (s : String) : Bool :=
  ["mom", "dad", "guardian"].contains s

/-- The relationship values offered by the client's selector (the
`relationship` union type and `<option>` list in the single-page client). -/
def clientRelationshipOptions : List String :=
  ["mom", "dad", "stepmom", "stepdad", "guardian", "grandmother", "grandfather"]

/-- POST /api/appointments validator chain. `true` = no validation errors. -/
def validatePostAppt (b : Body) : Bool :=
  reqField b "parent_id" (strPred isUUID) &&
  reqField b "date" (strPred isISO8601Date) &&
  reqField b "time" (strPred timeRegexMatches) &&
  reqField b "doctor" (strPred trimNonEmpty) &&
  reqField b "specialty" (strPred trimNonEmpty) &&
  reqField b "location" (strPred trimNonEmpty) &&
  reqField b "reason" (strPred trimNonEmpty) &&
  optField b "notes" isStringV &&
  optField b "follow_up_needed" isBooleanV

/-- PUT /api/appointments/:id validator chain (all fields optional). -/
def validatePutAppt (b : Body) : Bool :=
  optField b "date" (strPred isISO8601Date) &&
  optField b "time" (strPred timeRegexMatches) &&
  optField b "doctor" (strPred trimNonEmpty) &&
  optField b "specialty" (strPred trimNonEmpty) &&
  optField b "location" (strPred trimNonEmpty) &&
  optField b "reason" (strPred trimNonEmpty) &&
  optField b "notes" isStringV &&
  optField b "completed" isBooleanV &&
  optField b "follow_up_needed" isBooleanV

/-- POST /api/parents validator chain. -/
def validatePostParent (b : Body) : Bool :=
  reqField b "name" (strPred trimNonEmpty) &&
  optField b "age" (isIntBetween 1 150) &&
  reqField b "relationship" (strPred parentRelationshipIsIn) &&
  optField b "personality" isArrayV &&
  optField b "interests" isArrayV &&
  optField b "challenges" isArrayV &&
  optField b "communication_style" (isInList ["calls", "texts", "visits", "emails"]) &&
  optField b "relationship_goals" isArrayV

/-- PUT /api/parents/:id validator chain. -/
def validatePutParent (b : Body) : Bool :=
  optField b "name" (strPred trimNonEmpty) &&
  optField b "age" (isIntBetween 1 150) &&
  optField b "relationship" (strPred parentRelationshipIsIn) &&
  optField b "personality" isArrayV &&
  optField b "interests" isArrayV &&
  optField b "challenges" isArrayV &&
  optField b "communication_style" (isInList ["calls", "texts", "visits", "emails"]) &&
  optField b "relationship_goals" isArrayV

/-- PUT /api/notes/:id validator chain. -/
def validatePutNote (b : Body) : Bool :=
  optField b "date" (strPred isISO8601Date) &&
  optField b "type" (isInList ["appointment", "medication", "symptom", "general"]) &&
  optField b "title" (strPred trimNonEmpty) &&
  optField b "content" (strPred trimNonEmpty)

/-! ## Allow-listed partial updates

Each PUT handler builds an `updates` object by iterating its
`allowedFields` list and copying the body fields that are defined, then
hands the object to `updateRow`, which writes each column.
-/

def apptAllowedFields : List String :=
  ["date", "time", "doctor", "specialty", "location", "reason", "notes",
   "completed", "follow_up_needed"]

def parentAllowedFields : List String :=
  ["name", "age", "relationship", "personality", "interests", "challenges",
   "communication_style", "relationship_goals", "last_contact"]

def noteAllowedFields : List String :=
  ["date", "type", "title", "content"]

/-- The `allowedFields.forEach` loop: keep the allow-listed fields that
are defined on the body, in allow-list order. -/
def buildUpdates (allowed : List String) (b : Body) : List (String × JVal) :=
  allowed.filterMap fun f => (bodyGet b f).map fun v => (f, v)

/-- Write one column of an appointment row: the effect of the generic
`updateRow` applying one key of the `updates` object. Any column of the
table can be written (including `id` and `parent_id`, were such a key ever
passed); each column keeps its type. -/
def setApptField (a : Appointment) (fv : String × JVal) : Appointment :=
  match fv with
  | ("id", JVal.str s) => { a with id := s }
  | ("parent_id", JVal.str s) => { a with parent_id := s }
  | ("date", JVal.str s) => { a with date := s }
  | ("time", JVal.str s) => { a with time := s }
  | ("doctor", JVal.str s) => { a with doctor := s }
  | ("specialty", JVal.str s) => { a with specialty := s }
  | ("location", JVal.str s) => { a with location := s }
  | ("reason", JVal.str s) => { a with reason := s }
  | ("notes", JVal.str s) => { a with notes := s }
  | ("completed", JVal.bool x) => { a with completed := x }
  | ("follow_up_needed", JVal.bool x) => { a with follow_up_needed := x }
  | _ => a

def applyApptPatch (a : Appointment) (updates : List (String × JVal)) : Appointment :=
  updates.foldl setApptField a

/-- Write one column of a parent row (any column, as `updateRow` would). -/
def setParentField (p : ParentRow) (fv : String × JVal) : ParentRow :=
  match fv with
  | ("id", JVal.str s) => { p with id := s }
  | ("user_id", JVal.str s) => { p with user_id := s }
  | ("name", JVal.str s) => { p with name := s }
  | ("age", JVal.num n) => { p with age := some n }
  | ("relationship", JVal.str s) => { p with relationship := s }
  | ("personality", JVal.arr xs) => { p with personality := xs }
  | ("interests", JVal.arr xs) => { p with interests := xs }
  | ("challenges", JVal.arr xs) => { p with challenges := xs }
  | ("communication_style", JVal.str s) => { p with communication_style := some s }
  | ("relationship_goals", JVal.arr xs) => { p with relationship_goals := xs }
  | ("last_contact", JVal.str s) => { p with last_contact := some s }
  | _ => p

def applyParentPatch (p : ParentRow) (updates : List (String × JVal)) : ParentRow :=
  updates.foldl setParentField p

/-- Write one column of a medical-note row (any column, as `updateRow`
would). -/
def setNoteField (n : MedicalNote) (fv : String × JVal) : MedicalNote :=
  match fv with
  | ("id", JVal.str s) => { n with id := s }
  | ("parent_id", JVal.str s) => { n with parent_id := s }
  | ("date", JVal.str s) => { n with date := s }
  | ("type", JVal.str s) => { n with type := s }
  | ("title", JVal.str s) => { n with title := s }
  | ("content", JVal.str s) => { n with content := s }
  | _ => n

def applyNotePatch (n : MedicalNote) (updates : List (String × JVal)) : MedicalNote :=
  updates.foldl setNoteField n

/-! ## Joined ownership fetch

PUT/DELETE on appointments and notes fetch the row with
`select('*, parents!inner(user_id)').eq('id', id).single()`: the row by
primary key, inner-joined with its parent — no row, or a dangling
`parent_id`, makes `single()` fail.
-/

def findApptOwner (db : DB) (apptId : String) : Option (Appointment × String) :=
  match db.appointments.find? (fun a => a.id = apptId) with
  | none => none
  | some a => (db.parents.find? (fun p => p.id = a.parent_id)).map (fun p => (a, p.user_id))

def findNoteOwner (db : DB) (noteId : String) : Option (MedicalNote × String) :=
  match db.medical_notes.find? (fun n => n.id = noteId) with
  | none => none
  | some n => (db.parents.find? (fun p => p.id = n.parent_id)).map (fun p => (n, p.user_id))

/-! ## Sorting (`order('date', { ascending: false })`) -/

def insertByDateDesc (a : Appointment) : List Appointment → List Appointment
  | [] => [a]
  | b :: t => if b.date ≤ a.date then a :: b :: t else b :: insertByDateDesc a t

def sortByDateDesc : List Appointment → List Appointment
  | [] => []
  | a :: t => insertByDateDesc a (sortByDateDesc t)

/-! ## Appointment router handlers

Each handler returns the response, the database state after the request,
and the trace of database round-trips it issued, in order.
-/

/-- GET /api/appointments: list the user's parent ids; short-circuit to an
empty list when there are none; otherwise the joined `in`-filtered select,
ordered by date descending. The listed rows are returned in the second
component. -/
def getAppointments (db : DB) (userId : String) :
    Resp × List Appointment × List DBOp :=
  let parentIds := (db.parents.filter (fun p => p.user_id = userId)).map (·.id)
  if parentIds.length = 0 then
    (respOk, [], [DBOp.sel "parents"])
  else
    let appts := db.appointments.filter (fun a => parentIds.contains a.parent_id)
    (respOk, sortByDateDesc appts, [DBOp.sel "parents", DBOp.sel "appointments"])

/-- POST /api/appointments: validate, verify the parent belongs to the
user, insert the row (notes defaulting to `''`, follow_up_needed to
`false`, completed set `false`). `freshId` stands for the id the database
generates for the inserted row. Returns the response, the created row when
one was created, the new state, and the trace. -/
def postAppointment (db : DB) (userId freshId : String) (b : Body) :
    Resp × Option Appointment × DB × List DBOp :=
  if !validatePostAppt b then
    (respValidationFailed, none, db, [])
  else
    let pid := getStr b "parent_id"
    match db.parents.find? (fun p => p.id = pid && p.user_id = userId) with
    | none => (⟨404, some "Parent not found"⟩, none, db, [DBOp.sel "parents"])
    | some _ =>
        let appt : Appointment :=
          { id := freshId
            parent_id := pid
            date := getStr b "date"
            time := getStr b "time"
            doctor := getStr b "doctor"
            specialty := getStr b "specialty"
            location := getStr b "location"
            reason := getStr b "reason"
            notes := match bodyGet b "notes" with
              | some (JVal.str s) => s
              | _ => ""
            follow_up_needed := match bodyGet b "follow_up_needed" with
              | some (JVal.bool x) => x
              | _ => false
            completed := false }
        (respCreated, some appt,
          { db with appointments := db.appointments ++ [appt] },
          [DBOp.sel "parents", DBOp.ins "appointments"])

/-- PUT /api/appointments/:id: validate, fetch the row joined with its
parent's owning user, 404 when the fetch fails or the owner differs,
build the allow-listed `updates`, 400 when it is empty, else update. -/
def putAppointment (db : DB) (userId apptId : String) (b : Body) :
    Resp × DB × List DBOp :=
  if !validatePutAppt b then
    (respValidationFailed, db, [])
  else
    match findApptOwner db apptId with
    | none => (⟨404, some "Appointment not found"⟩, db, [DBOp.sel "appointments"])
    | some (_, owner) =>
        if owner ≠ userId then
          (⟨404, some "Appointment not found"⟩, db, [DBOp.sel "appointments"])
        else
          let updates := buildUpdates apptAllowedFields b
          if updates.length = 0 then
            (respNoFields, db, [DBOp.sel "appointments"])
          else
            (respOk,
              { db with appointments :=
                  db.appointments.map fun r =>
                    if r.id = apptId then applyApptPatch r updates else r },
              [DBOp.sel "appointments", DBOp.upd "appointments"])

/-- DELETE /api/appointments/:id: fetch joined with the owner, 404 when
missing or not owned, else delete by id. -/
def deleteAppointment (db : DB) (userId apptId : String) :
    Resp × DB × List DBOp :=
  match findApptOwner db apptId with
  | none => (⟨404, some "Appointment not found"⟩, db, [DBOp.sel "appointments"])
  | some (_, owner) =>
      if owner ≠ userId then
        (⟨404, some "Appointment not found"⟩, db, [DBOp.sel "appointments"])
      else
        (respOk,
          { db with appointments := db.appointments.filter (fun r => !(r.id = apptId)) },
          [DBOp.sel "appointments", DBOp.del "appointments"])

/-! ## Medical-note router handlers -/

/-- GET /api/notes: same short-circuit shape as the appointment list. -/
def getNotes (db : DB) (userId : String) :
    Resp × List MedicalNote × List DBOp :=
  let parentIds := (db.parents.filter (fun p => p.user_id = userId)).map (·.id)
  if parentIds.length = 0 then
    (respOk, [], [DBOp.sel "parents"])
  else
    let notes := db.medical_notes.filter (fun n => parentIds.contains n.parent_id)
    (respOk, notes, [DBOp.sel "parents", DBOp.sel "medical_notes"])

/-- PUT /api/notes/:id. -/
def putNote (db : DB) (userId noteId : String) (b : Body) :
    Resp × DB × List DBOp :=
  if !validatePutNote b then
    (respValidationFailed, db, [])
  else
    match findNoteOwner db noteId with
    | none => (⟨404, some "Medical note not found"⟩, db, [DBOp.sel "medical_notes"])
    | some (_, owner) =>
        if owner ≠ userId then
          (⟨404, some "Medical note not found"⟩, db, [DBOp.sel "medical_notes"])
        else
          let updates := buildUpdates noteAllowedFields b
          if updates.length = 0 then
            (respNoFields, db, [DBOp.sel "medical_notes"])
          else
            (respOk,
              { db with medical_notes :=
                  db.medical_notes.map fun r =>
                    if r.id = noteId then applyNotePatch r updates else r },
              [DBOp.sel "medical_notes", DBOp.upd "medical_notes"])

/-! ## Parent router handlers -/

/-- POST /api/parents: validate, insert with defaults (`age: age || null`,
`communication_style || null`, tag lists defaulting to `[]`). -/
def postParent (db : DB) (userId freshId : String) (b : Body) :
    Resp × Option ParentRow × DB × List DBOp :=
  if !validatePostParent b then
    (respValidationFailed, none, db, [])
  else
    let p : ParentRow :=
      { id := freshId
        user_id := userId
        name := getStr b "name"
        age := match bodyGet b "age" with
          | some (JVal.num n) => some n
          | _ => none
        relationship := getStr b "relationship"
        personality := match bodyGet b "personality" with
          | some (JVal.arr xs) => xs
          | _ => []
        interests := match bodyGet b "interests" with
          | some (JVal.arr xs) => xs
          | _ => []
        challenges := match bodyGet b "challenges" with
          | some (JVal.arr xs) => xs
          | _ => []
        communication_style := match bodyGet b "communication_style" with
          | some (JVal.str s) => some s
          | _ => none
        relationship_goals := match bodyGet b "relationship_goals" with
          | some (JVal.arr xs) => xs
          | _ => []
        last_contact := none }
    (respCreated, some p, { db with parents := db.parents ++ [p] },
      [DBOp.ins "parents"])

/-- PUT /api/parents/:id: validate, `selectRow('parents', {id, user_id})`
ownership check (404 on the PGRST116 miss), allow-listed updates, update
filtered by id and user id. -/
def putParent (db : DB) (userId parentId : String) (b : Body) :
    Resp × DB × List DBOp :=
  if !validatePutParent b then
    (respValidationFailed, db, [])
  else
    match db.parents.find? (fun p => p.id = parentId && p.user_id = userId) with
    | none => (⟨404, some "Parent not found"⟩, db, [DBOp.sel "parents"])
    | some _ =>
        let updates := buildUpdates parentAllowedFields b
        if updates.length = 0 then
          (respNoFields, db, [DBOp.sel "parents"])
        else
          (respOk,
            { db with parents :=
                db.parents.map fun r =>
                  if r.id = parentId && r.user_id = userId
                    then applyParentPatch r updates else r },
            [DBOp.sel "parents", DBOp.upd "parents"])

/-! ## Database gateway (`src/server/database/supabase.js`)

The gateway's generic row model: a row is a map column → value; a filter
map is applied as chained `.eq(key, value)` calls, all conjoined.
-/

abbrev GRow := List (String × String)
abbrev Filters := List (String × String)

/-- A row satisfies an equality-filter map: every `.eq(key, value)` in the
chain holds. -/
def matchesFilters (r : GRow) (fs : Filters) : Bool :=
  fs.all fun kv => r.lookup kv.1 = some kv.2

/-- The provider's response to a filtered `delete`: it removes every
matching row and reports no error whether or not any row matched. -/
def providerDelete (rows : List GRow) (fs : Filters) :
    List GRow × Option String :=
  (rows.filter (fun r => !matchesFilters r fs), none)

/-- `deleteRow(table, filters)`: issue the filtered delete; throw the
provider's error if there is one, else return `true`. The first component
is the table contents after the call. -/
def deleteRow (rows : List GRow) (fs : Filters) :
    List GRow × Except String Bool :=
  match providerDelete rows fs with
  | (remaining, some e) => (remaining, Except.error e)
  | (remaining, none) => (remaining, Except.ok true)

/-! ## Auth router (`routes/auth.js`, current variant)

The handler's interaction with the auth provider is embedded by passing
the provider's two possible answers (to `signUp` and to
`signInWithPassword` for the same credentials) as oracles, and recording
which provider calls the handler actually made.
-/

structure AuthUser where
  id : String
  email : String
  /-- `user_metadata.name`; `none` when the metadata has no name. -/
  meta_name : Option String
deriving DecidableEq, Repr

structure Session where
  access_token : String
deriving DecidableEq, Repr

structure SignUpData where
  user : AuthUser
  session : Option Session
deriving DecidableEq, Repr

inductive SignUpOutcome where
  | err (message : String)
  | ok (data : SignUpData)
deriving DecidableEq, Repr

inductive SignInOutcome where
  | err (message : String)
  | ok (user : AuthUser) (session : Session)
deriving DecidableEq, Repr

inductive ProviderCall where
  | signUp
  | signIn
deriving DecidableEq, Repr

structure RegisterReq where
  email : String
  password : String
  name : String
deriving DecidableEq, Repr

/-- The `user` object the auth router serialises into its responses. -/
structure UserOut where
  id : String
  email : String
  name : String
deriving DecidableEq, Repr

/-- The auth router's response: status, `error` field, `details` of a
validation failure, and the `user`/`session` payload when present. -/
structure AuthResp where
  status : Nat
  error : Option String
  details : List String
  user : Option UserOut
  session : Option Session
deriving DecidableEq, Repr

/-- JS `a || b` on a possibly-missing string (both `undefined` and the
empty string are falsy). -/
def jsOrStr (a : Option String) (b : String) : String :=
  match a with
  | some s => if s = "" then b else s
  | none => b

/-- The register validator chain, by failure messages (`errors.array()`
flattened to its message strings). -/
def registerValidationErrors (r : RegisterReq) : List String :=
  (if isEmail r.email then [] else ["Valid email required"]) ++
  (if r.password.length ≥ 6 then [] else ["Password must be at least 6 characters"]) ++
  (if trimNonEmpty r.name then [] else ["Name is required"])

/-- POST /api/auth/register: validation, then `signUp`; on an
"already registered" error fall back to `signInWithPassword`; on a
missing session attempt an immediate sign-in; otherwise serialise the
sign-up payload. Returns the response and the provider calls made. -/
def registerHandler (r : RegisterReq) (su : SignUpOutcome) (si : SignInOutcome) :
    AuthResp × List ProviderCall :=
  let errs := registerValidationErrors r
  if errs.length ≠ 0 then
    (⟨400, some "Validation failed", errs, none, none⟩, [])
  else
    match su with
    | SignUpOutcome.err msg =>
        if strIncludes msg "already registered" then
          match si with
          | SignInOutcome.err _ =>
              (⟨400, some "User already exists. Please login instead.", [], none, none⟩,
                [ProviderCall.signUp, ProviderCall.signIn])
          | SignInOutcome.ok u s =>
              (⟨200, none, [],
                some ⟨u.id, u.email, jsOrStr u.meta_name r.name⟩, some s⟩,
                [ProviderCall.signUp, ProviderCall.signIn])
        else
          (⟨400, some msg, [], none, none⟩, [ProviderCall.signUp])
    | SignUpOutcome.ok data =>
        match data.session with
        | none =>
            match si with
            | SignInOutcome.ok u s =>
                (⟨201, none, [],
                  some ⟨u.id, u.email, jsOrStr u.meta_name r.name⟩, some s⟩,
                  [ProviderCall.signUp, ProviderCall.signIn])
            | SignInOutcome.err _ =>
                (⟨201, none, [],
                  some ⟨data.user.id, data.user.email, r.name⟩, none⟩,
                  [ProviderCall.signUp, ProviderCall.signIn])
        | some s =>
            (⟨201, none, [],
              some ⟨data.user.id, data.user.email, data.user.meta_name.getD ""⟩,
              some s⟩,
              [ProviderCall.signUp])

/-! ## Theorems -/

/-- C1: for an authenticated PUT or DELETE on an appointment whose body
passes validation, if no appointment row with the given id exists (or its
parent join dangles), or the joined parent's owning-user id differs from
the requesting user's id, both handlers answer the identical 404
response with the generic error "Appointment not found", leave the
database unchanged, and issue no update or delete round-trip. -/
theorem put_delete_appointment_nonowner_404 (db : DB) (u i : String) (b : Body)
    (hval : validatePutAppt b = true)
    (hown : ∀ a o, findApptOwner db i = some (a, o) → o ≠ u) :
    putAppointment db u i b
        = (⟨404, some "Appointment not found"⟩, db, [DBOp.sel "appointments"]) ∧
      deleteAppointment db u i
        = (⟨404, some "Appointment not found"⟩, db, [DBOp.sel "appointments"]) := by
  refine ⟨?_, ?_⟩
  · unfold putAppointment
    rw [hval]
    cases h : findApptOwner db i with
    | none => rfl
    | some ao =>
        obtain ⟨a, o⟩ := ao
        have hne : o ≠ u := hown a o h
        simp [hne]
  · unfold deleteAppointment
    cases h : findApptOwner db i with
    | none => rfl
    | some ao =>
        obtain ⟨a, o⟩ := ao
        have hne : o ≠ u := hown a o h
        simp [hne]

/-- C1 witness: on an empty database (so the appointment row does not
exist) both mutating handlers produce the identical 404. -/
theorem put_delete_appointment_nonowner_404_witness :
    putAppointment ⟨[], [], []⟩ "user-a" "appt-1" []
        = (⟨404, some "Appointment not found"⟩, ⟨[], [], []⟩, [DBOp.sel "appointments"]) ∧
      deleteAppointment ⟨[], [], []⟩ "user-a" "appt-1"
        = (⟨404, some "Appointment not found"⟩, ⟨[], [], []⟩, [DBOp.sel "appointments"]) :=
  put_delete_appointment_nonowner_404 ⟨[], [], []⟩ "user-a" "appt-1" []
    (by decide)
    (by intro a o h; simp [findApptOwner] at h)

/-- C2: when the auth provider answers registration with an error whose
message contains "already registered", the handler tries
`signInWithPassword` with the same credentials; on success it responds
200 with the existing user and the session, and only if that login also
fails does it respond 400 with "User already exists. Please login
instead.". -/
theorem register_already_registered_fallback (r : RegisterReq)
    (msg : String) (si : SignInOutcome)
    (hval : registerValidationErrors r = [])
    (hmsg : strIncludes msg "already registered" = true) :
    (registerHandler r (SignUpOutcome.err msg) si).2
        = [ProviderCall.signUp, ProviderCall.signIn] ∧
    (∀ u s, si = SignInOutcome.ok u s →
      registerHandler r (SignUpOutcome.err msg) si
        = (⟨200, none, [], some ⟨u.id, u.email, jsOrStr u.meta_name r.name⟩, some s⟩,
            [ProviderCall.signUp, ProviderCall.signIn])) ∧
    (∀ m, si = SignInOutcome.err m →
      registerHandler r (SignUpOutcome.err msg) si
        = (⟨400, some "User already exists. Please login instead.", [], none, none⟩,
            [ProviderCall.signUp, ProviderCall.signIn])) := by
  unfold registerHandler
  rw [hval]
  cases si <;> simp [hmsg]

/-- C2 witness: a concrete duplicate registration; with a working login
the handler answers 200 with the user and session, and the fallback login
is attempted (both provider calls appear in the trace). -/
theorem register_already_registered_fallback_witness :
    (registerHandler ⟨"a@b.com", "secret1", "A"⟩
        (SignUpOutcome.err "User already registered")
        (SignInOutcome.ok ⟨"id-1", "a@b.com", some "A"⟩ ⟨"tok-1"⟩)).2
        = [ProviderCall.signUp, ProviderCall.signIn] ∧
      registerHandler ⟨"a@b.com", "secret1", "A"⟩
        (SignUpOutcome.err "User already registered")
        (SignInOutcome.ok ⟨"id-1", "a@b.com", some "A"⟩ ⟨"tok-1"⟩)
        = (⟨200, none, [], some ⟨"id-1", "a@b.com", "A"⟩, some ⟨"tok-1"⟩⟩,
            [ProviderCall.signUp, ProviderCall.signIn]) :=
  have h := register_already_registered_fallback ⟨"a@b.com", "secret1", "A"⟩
    "User already registered"
    (SignInOutcome.ok ⟨"id-1", "a@b.com", some "A"⟩ ⟨"tok-1"⟩)
    (by decide) (by decide)
  ⟨h.1, by simpa [jsOrStr] using h.2.1 ⟨"id-1", "a@b.com", some "A"⟩ ⟨"tok-1"⟩ rfl⟩

/-! Concrete fixtures used by witnesses. -/

def pRow1 : ParentRow :=
  ⟨"11111111-1111-1111-1111-111111111111", "u-1", "Mom", some 68, "mom",
    [], [], [], none, [], none⟩

def appt1 : Appointment :=
  ⟨"a-1", "11111111-1111-1111-1111-111111111111", "2024-05-01", "09:30",
    "Dr. Lee", "Cardiology", "Clinic", "Checkup", "", false, false⟩

def note1 : MedicalNote :=
  ⟨"n-1", "11111111-1111-1111-1111-111111111111", "2024-05-01", "general",
    "Title", "Content"⟩

def sampleDB : DB := ⟨[pRow1], [appt1], [note1]⟩

/-- C3: a PUT on a parent, appointment or medical note that passes
validation and the ownership check but whose body defines none of the
allow-listed fields answers 400 "No fields to update", leaves the
database unchanged, and issues no update round-trip. -/
theorem put_no_allowlisted_fields_400 :
    (∀ (db : DB) (u i : String) (b : Body) (a : Appointment),
      validatePutAppt b = true →
      findApptOwner db i = some (a, u) →
      buildUpdates apptAllowedFields b = [] →
      putAppointment db u i b = (respNoFields, db, [DBOp.sel "appointments"])) ∧
    (∀ (db : DB) (u i : String) (b : Body) (p : ParentRow),
      validatePutParent b = true →
      db.parents.find? (fun q => q.id = i && q.user_id = u) = some p →
      buildUpdates parentAllowedFields b = [] →
      putParent db u i b = (respNoFields, db, [DBOp.sel "parents"])) ∧
    (∀ (db : DB) (u i : String) (b : Body) (n : MedicalNote),
      validatePutNote b = true →
      findNoteOwner db i = some (n, u) →
      buildUpdates noteAllowedFields b = [] →
      putNote db u i b = (respNoFields, db, [DBOp.sel "medical_notes"])) := by
  refine ⟨?_, ?_, ?_⟩
  · intro db u i b a hval hf he
    unfold putAppointment
    rw [hval, hf]
    simp [he]
  · intro db u i b p hval hf he
    unfold putParent
    rw [hval, hf]
    simp [he]
  · intro db u i b n hval hf he
    unfold putNote
    rw [hval, hf]
    simp [he]

/-- C3 witness: on a one-row database, a PUT whose body has no
allow-listed field (for the appointment, a body carrying only the
non-allow-listed `parent_id`) yields 400 "No fields to update" and no
change, for all three resources. -/
theorem put_no_allowlisted_fields_400_witness :
    putAppointment sampleDB "u-1" "a-1" [("parent_id", JVal.str "p-9")]
        = (respNoFields, sampleDB, [DBOp.sel "appointments"]) ∧
      putParent sampleDB "u-1" "11111111-1111-1111-1111-111111111111" []
        = (respNoFields, sampleDB, [DBOp.sel "parents"]) ∧
      putNote sampleDB "u-1" "n-1" []
        = (respNoFields, sampleDB, [DBOp.sel "medical_notes"]) :=
  ⟨put_no_allowlisted_fields_400.1 sampleDB "u-1" "a-1"
      [("parent_id", JVal.str "p-9")] appt1 (by decide) (by decide) (by decide),
    put_no_allowlisted_fields_400.2.1 sampleDB "u-1"
      "11111111-1111-1111-1111-111111111111" [] pRow1 (by decide) (by decide) (by decide),
    put_no_allowlisted_fields_400.2.2 sampleDB "u-1" "n-1" [] note1
      (by decide) (by decide) (by decide)⟩

theorem mem_insertByDateDesc {x a : Appointment} {l : List Appointment} :
    x ∈ insertByDateDesc a l ↔ x = a ∨ x ∈ l := by
  induction l with
  | nil => simp [insertByDateDesc]
  | cons b t ih =>
      unfold insertByDateDesc
      by_cases h : b.date ≤ a.date
      · simp [h]
      · simp [h, ih]
        tauto

theorem mem_sortByDateDesc {x : Appointment} {l : List Appointment} :
    x ∈ sortByDateDesc l ↔ x ∈ l := by
  induction l with
  | nil => simp [sortByDateDesc]
  | cons a t ih => simp [sortByDateDesc, mem_insertByDateDesc, ih]

/-- C4: a valid POST /api/appointments creates a row whose date and time
equal the submitted values and whose completed flag is false, with notes
and follow_up_needed defaulting to `""` and `false` when omitted; a
subsequent GET /api/appointments for the same user lists that row with
exactly those values. -/
theorem post_then_get_appointment_roundtrip (db : DB) (u fid : String)
    (b : Body) (p : ParentRow)
    (hval : validatePostAppt b = true)
    (hpar : db.parents.find? (fun q => q.id = getStr b "parent_id" && q.user_id = u)
        = some p) :
    (postAppointment db u fid b).1 = respCreated ∧
    ∃ a : Appointment,
      (postAppointment db u fid b).2.1 = some a ∧
      a.date = getStr b "date" ∧
      a.time = getStr b "time" ∧
      a.completed = false ∧
      (bodyGet b "notes" = none → a.notes = "") ∧
      (bodyGet b "follow_up_needed" = none → a.follow_up_needed = false) ∧
      a ∈ (getAppointments (postAppointment db u fid b).2.2.1 u).2.1 := by
  have hmemp : p ∈ db.parents := List.mem_of_find?_eq_some hpar
  have hpred := List.find?_some hpar
  simp only [Bool.and_eq_true, decide_eq_true_eq] at hpred
  unfold postAppointment
  rw [hval]
  simp only [Bool.not_true, Bool.false_eq_true, if_false]
  rw [hpar]
  refine ⟨rfl, _, rfl, rfl, rfl, rfl, ?_, ?_, ?_⟩
  · intro h
    simp [h]
  · intro h
    simp [h]
  · -- the GET on the post-state lists the inserted row
    unfold getAppointments
    have hpfil : p ∈ db.parents.filter (fun q => q.user_id = u) :=
      List.mem_filter.mpr ⟨hmemp, by simp [hpred.2]⟩
    have hpid : p.id ∈ (db.parents.filter (fun q => q.user_id = u)).map (·.id) :=
      List.mem_map.mpr ⟨p, hpfil, rfl⟩
    have hlen : ((db.parents.filter (fun q => q.user_id = u)).map (·.id)).length ≠ 0 := by
      intro h0
      rw [List.length_eq_zero] at h0
      rw [h0] at hpid
      exact absurd hpid (List.not_mem_nil _)
    simp only [hlen, if_false, ite_false]
    rw [mem_sortByDateDesc]
    refine List.mem_filter.mpr ⟨List.mem_append_right _ (List.mem_singleton.mpr rfl), ?_⟩
    have : getStr b "parent_id" ∈ (db.parents.filter (fun q => q.user_id = u)).map (·.id) := by
      rw [← hpred.1]
      exact hpid
    simpa using this

/-- C4 witness: a concrete valid POST (notes and follow_up_needed
omitted) followed by GET for the same user returns the created
appointment with the submitted date, time, and completed = false. -/
theorem post_then_get_appointment_roundtrip_witness :
    (postAppointment sampleDB "u-1" "a-2"
        [("parent_id", JVal.str "11111111-1111-1111-1111-111111111111"),
          ("date", JVal.str "2024-06-01"), ("time", JVal.str "10:00"),
          ("doctor", JVal.str "Dr. A"), ("specialty", JVal.str "GP"),
          ("location", JVal.str "Clinic"), ("reason", JVal.str "Visit")]).1
      = respCreated ∧
    ∃ a : Appointment,
      (postAppointment sampleDB "u-1" "a-2"
        [("parent_id", JVal.str "11111111-1111-1111-1111-111111111111"),
          ("date", JVal.str "2024-06-01"), ("time", JVal.str "10:00"),
          ("doctor", JVal.str "Dr. A"), ("specialty", JVal.str "GP"),
          ("location", JVal.str "Clinic"), ("reason", JVal.str "Visit")]).2.1 = some a ∧
      a.date = getStr [("parent_id", JVal.str "11111111-1111-1111-1111-111111111111"),
          ("date", JVal.str "2024-06-01"), ("time", JVal.str "10:00"),
          ("doctor", JVal.str "Dr. A"), ("specialty", JVal.str "GP"),
          ("location", JVal.str "Clinic"), ("reason", JVal.str "Visit")] "date" ∧
      a.time = getStr [("parent_id", JVal.str "11111111-1111-1111-1111-111111111111"),
          ("date", JVal.str "2024-06-01"), ("time", JVal.str "10:00"),
          ("doctor", JVal.str "Dr. A"), ("specialty", JVal.str "GP"),
          ("location", JVal.str "Clinic"), ("reason", JVal.str "Visit")] "time" ∧
      a.completed = false ∧
      (bodyGet [("parent_id", JVal.str "11111111-1111-1111-1111-111111111111"),
          ("date", JVal.str "2024-06-01"), ("time", JVal.str "10:00"),
          ("doctor", JVal.str "Dr. A"), ("specialty", JVal.str "GP"),
          ("location", JVal.str "Clinic"), ("reason", JVal.str "Visit")] "notes" = none
        → a.notes = "") ∧
      (bodyGet [("parent_id", JVal.str "11111111-1111-1111-1111-111111111111"),
          ("date", JVal.str "2024-06-01"), ("time", JVal.str "10:00"),
          ("doctor", JVal.str "Dr. A"), ("specialty", JVal.str "GP"),
          ("location", JVal.str "Clinic"), ("reason", JVal.str "Visit")] "follow_up_needed" = none
        → a.follow_up_needed = false) ∧
      a ∈ (getAppointments (postAppointment sampleDB "u-1" "a-2"
          [("parent_id", JVal.str "11111111-1111-1111-1111-111111111111"),
            ("date", JVal.str "2024-06-01"), ("time", JVal.str "10:00"),
            ("doctor", JVal.str "Dr. A"), ("specialty", JVal.str "GP"),
            ("location", JVal.str "Clinic"), ("reason", JVal.str "Visit")]).2.2.1 "u-1").2.1 :=
  post_then_get_appointment_roundtrip sampleDB "u-1" "a-2"
    [("parent_id", JVal.str "11111111-1111-1111-1111-111111111111"),
      ("date", JVal.str "2024-06-01"), ("time", JVal.str "10:00"),
      ("doctor", JVal.str "Dr. A"), ("specialty", JVal.str "GP"),
      ("location", JVal.str "Clinic"), ("reason", JVal.str "Visit")]
    pRow1 (by decide) (by decide)

/-- The `parents.relationship` CHECK constraint of the SQL schema:
`CHECK(relationship IN ('mom', 'dad', 'guardian'))`. -/
def parentsRelationshipCheck (s : String) : Bool :=
  ["mom", "dad", "guardian"].contains s

/-- C5 counterexample: the claim says some variant value beyond mom, dad,
guardian offered by the client's relationship selector passes validation.
In fact the selector's variant extensions are exactly stepmom, stepdad,
grandmother, grandfather, and every one of them — in particular the
claim's examples 'stepmom' and 'grandmother' — is rejected by the
relationship validator and by the schema's CHECK constraint. -/
theorem relationship_variant_values_all_rejected :
    (clientRelationshipOptions.filter (fun s => !parentRelationshipIsIn s))
        = ["stepmom", "stepdad", "grandmother", "grandfather"] ∧
      (["stepmom", "stepdad", "grandmother", "grandfather"].all
        (fun s => !parentRelationshipIsIn s && !parentsRelationshipCheck s)) = true ∧
      postParent sampleDB "u-1" "p-x"
          [("name", JVal.str "Mom"), ("relationship", JVal.str "stepmom")]
        = (respValidationFailed, none, sampleDB, []) ∧
      putParent sampleDB "u-1" "11111111-1111-1111-1111-111111111111"
          [("relationship", JVal.str "grandmother")]
        = (respValidationFailed, sampleDB, []) := by
  refine ⟨by decide, by decide, rfl, rfl⟩

/-- C5 amended: the relationship category accepted by the Parent create
and update validators is exactly the base enumeration mom/dad/guardian;
every variant extension offered by the client's selector (stepmom,
stepdad, grandmother, grandfather) fails validation with a 400 and never
reaches the database, and the schema CHECK constraint rejects it too. -/
theorem parent_relationship_base_enum_only (db : DB) (u fid i s : String)
    (hvar : s ∈ ["stepmom", "stepdad", "grandmother", "grandfather"]) :
    postParent db u fid [("name", JVal.str "Mom"), ("relationship", JVal.str s)]
        = (respValidationFailed, none, db, []) ∧
      putParent db u i [("relationship", JVal.str s)]
        = (respValidationFailed, db, []) ∧
      parentsRelationshipCheck s = false ∧
      parentRelationshipIsIn "mom" = true ∧
      parentRelationshipIsIn "dad" = true ∧
      parentRelationshipIsIn "guardian" = true := by
  simp only [List.mem_cons, List.not_mem_nil, or_false] at hvar
  rcases hvar with rfl | rfl | rfl | rfl <;>
    exact ⟨rfl, rfl, rfl, rfl, rfl, rfl⟩

/-- C5 amended witness: the concrete variant 'stepmom' is rejected by
both parent mutation routes and the CHECK constraint. -/
theorem parent_relationship_base_enum_only_witness :
    postParent sampleDB "u-9" "p-x"
        [("name", JVal.str "Mom"), ("relationship", JVal.str "stepmom")]
      = (respValidationFailed, none, sampleDB, []) ∧
    putParent sampleDB "u-9" "p-1" [("relationship", JVal.str "stepmom")]
      = (respValidationFailed, sampleDB, []) ∧
    parentsRelationshipCheck "stepmom" = false ∧
    parentRelationshipIsIn "mom" = true ∧
    parentRelationshipIsIn "dad" = true ∧
    parentRelationshipIsIn "guardian" = true :=
  parent_relationship_base_enum_only sampleDB "u-9" "p-x" "p-1" "stepmom"
    (by decide)

/-- C6: the appointment time validator accepts a string only when it is a
valid 24-hour clock time (hour 0–23, minute 0–59, in the validator's
`H:MM`/`HH:MM` shape); and a POST /api/appointments whose time field is
the malformed "25:61" is answered 400 "Validation failed" with no
database round-trip and no state change. -/
theorem appointment_time_validator_24h :
    (∀ s : String, timeRegexMatches s = true → spec24HourTime s = true) ∧
    (∀ (db : DB) (u fid : String) (b : Body),
      bodyGet b "time" = some (JVal.str "25:61") →
      postAppointment db u fid b = (respValidationFailed, none, db, [])) := by
  constructor
  · intro s h
    unfold timeRegexMatches at h
    unfold spec24HourTime
    rcases hl : s.toList with _ | ⟨c1, _ | ⟨c2, _ | ⟨c3, _ | ⟨c4, _ | ⟨c5, _ | ⟨c6, rest⟩⟩⟩⟩⟩⟩ <;>
      rw [hl] at h
    · exact Bool.noConfusion h
    · exact Bool.noConfusion h
    · exact Bool.noConfusion h
    · exact Bool.noConfusion h
    · -- one-digit hour `H:MM`
      simp only [Bool.and_eq_true, Bool.or_eq_true, decide_eq_true_eq,
        isDigitChar, charIn, digitVal] at h ⊢
      simp only [show ('0').toNat = 48 from rfl, show ('1').toNat = 49 from rfl,
        show ('2').toNat = 50 from rfl, show ('3').toNat = 51 from rfl,
        show ('5').toNat = 53 from rfl, show ('9').toNat = 57 from rfl] at h ⊢
      obtain ⟨⟨⟨hc, hh⟩, hm1⟩, hm2⟩ := h
      refine ⟨⟨⟨⟨⟨hc, hh⟩, hm1.1, by omega⟩, hm2⟩, by omega⟩, by omega⟩
    · -- two-digit hour `HH:MM`
      simp only [Bool.and_eq_true, Bool.or_eq_true, decide_eq_true_eq,
        isDigitChar, charIn, digitVal] at h ⊢
      simp only [show ('0').toNat = 48 from rfl, show ('1').toNat = 49 from rfl,
        show ('2').toNat = 50 from rfl, show ('3').toNat = 51 from rfl,
        show ('5').toNat = 53 from rfl, show ('9').toNat = 57 from rfl] at h ⊢
      obtain ⟨⟨⟨hc, hh⟩, hm1⟩, hm2⟩ := h
      rcases hh with ⟨h1, h2⟩ | ⟨heq, h2⟩
      · exact ⟨⟨⟨⟨⟨⟨hc, by omega⟩, h2⟩, hm1.1, by omega⟩, hm2⟩, by omega⟩, by omega⟩
      · have h1n : c1.toNat = 50 := by rw [heq]; rfl
        exact ⟨⟨⟨⟨⟨⟨hc, by omega⟩, by omega⟩, hm1.1, by omega⟩, hm2⟩, by omega⟩, by omega⟩
    · exact Bool.noConfusion h
  · intro db u fid b hb
    have hv : validatePostAppt b = false := by
      unfold validatePostAppt reqField
      rw [hb]
      have h61 : strPred timeRegexMatches (JVal.str "25:61") = false := by decide
      simp [h61]
    unfold postAppointment
    rw [hv]
    rfl

/-- C6 witness: "23:59" is accepted by the regex and is a valid 24-hour
time; the concrete POST carrying time "25:61" is rejected with 400 and no
database access. -/
theorem appointment_time_validator_24h_witness :
    spec24HourTime "23:59" = true ∧
      postAppointment sampleDB "u-1" "a-3" [("time", JVal.str "25:61")]
        = (respValidationFailed, none, sampleDB, []) :=
  ⟨appointment_time_validator_24h.1 "23:59" (by decide),
    appointment_time_validator_24h.2 sampleDB "u-1" "a-3"
      [("time", JVal.str "25:61")] (by decide)⟩

/-- C7: a user owning zero parents gets 200 with an empty list from both
GET /api/appointments and GET /api/notes, and each handler issues only
the parents lookup — no round-trip ever touches the appointments or
medical_notes table (the empty-parent-id short-circuit). -/
theorem list_routes_short_circuit_zero_parents (db : DB) (u : String)
    (h : db.parents.filter (fun p => p.user_id = u) = []) :
    getAppointments db u = (respOk, [], [DBOp.sel "parents"]) ∧
      getNotes db u = (respOk, [], [DBOp.sel "parents"]) := by
  unfold getAppointments getNotes
  rw [h]
  simp

/-- C7 witness: a user with no parent rows in a non-empty database gets
the empty lists and only the parents lookup in the trace. -/
theorem list_routes_short_circuit_zero_parents_witness :
    getAppointments sampleDB "u-2" = (respOk, [], [DBOp.sel "parents"]) ∧
      getNotes sampleDB "u-2" = (respOk, [], [DBOp.sel "parents"]) :=
  list_routes_short_circuit_zero_parents sampleDB "u-2" (by decide)

theorem buildUpdates_keys (allowed : List String) (b : Body) :
    ∀ kv ∈ buildUpdates allowed b, kv.1 ∈ allowed := by
  intro kv hkv
  unfold buildUpdates at hkv
  rw [List.mem_filterMap] at hkv
  obtain ⟨f, hf, hmap⟩ := hkv
  cases hv : bodyGet b f with
  | none => rw [hv] at hmap; exact Option.noConfusion hmap
  | some v =>
      rw [hv] at hmap
      obtain rfl : (f, v) = kv := Option.some.inj hmap
      exact hf

theorem setApptField_preserves_ids (a : Appointment) (kv : String × JVal)
    (hk : kv.1 ∈ apptAllowedFields) :
    (setApptField a kv).id = a.id ∧ (setApptField a kv).parent_id = a.parent_id := by
  obtain ⟨k, v⟩ := kv
  simp only [apptAllowedFields, List.mem_cons, List.not_mem_nil, or_false] at hk
  rcases hk with rfl | rfl | rfl | rfl | rfl | rfl | rfl | rfl | rfl <;>
    cases v <;> exact ⟨rfl, rfl⟩

theorem applyApptPatch_preserves_ids (a : Appointment) (ups : List (String × JVal))
    (hk : ∀ kv ∈ ups, kv.1 ∈ apptAllowedFields) :
    (applyApptPatch a ups).id = a.id ∧ (applyApptPatch a ups).parent_id = a.parent_id := by
  induction ups generalizing a with
  | nil => exact ⟨rfl, rfl⟩
  | cons kv t ih =>
      have hset := setApptField_preserves_ids a kv (hk kv (List.mem_cons_self _ _))
      have hrest : ∀ kv' ∈ t, kv'.1 ∈ apptAllowedFields :=
        fun kv' h' => hk kv' (List.mem_cons_of_mem _ h')
      obtain ⟨h1, h2⟩ := ih (setApptField a kv) hrest
      exact ⟨h1.trans hset.1, h2.trans hset.2⟩

/-- C8: when PUT /api/appointments/:id succeeds, every row other than the
target keeps its value, the target row is rewritten only through the
allow-listed patch, and that patch never changes the row's id or
parent_id, whatever extra fields — in particular `parent_id` and `id` —
the request body carries. -/
theorem put_appointment_allowlist_frame (db : DB) (u i : String) (b : Body)
    (resp : Resp) (db' : DB) (tr : List DBOp)
    (hrun : putAppointment db u i b = (resp, db', tr))
    (hok : resp.status = 200) :
    db'.appointments = db.appointments.map
        (fun r => if r.id = i
          then applyApptPatch r (buildUpdates apptAllowedFields b) else r) ∧
      ∀ r : Appointment,
        (applyApptPatch r (buildUpdates apptAllowedFields b)).id = r.id ∧
        (applyApptPatch r (buildUpdates apptAllowedFields b)).parent_id = r.parent_id := by
  have hpatch := fun r =>
    applyApptPatch_preserves_ids r (buildUpdates apptAllowedFields b)
      (buildUpdates_keys apptAllowedFields b)
  refine ⟨?_, hpatch⟩
  unfold putAppointment at hrun
  simp only [] at hrun
  split at hrun
  · obtain ⟨rfl, rfl, rfl⟩ := Prod.mk.injEq .. ▸ hrun
    exact absurd hok (by decide)
  · split at hrun
    · obtain ⟨rfl, rfl, rfl⟩ := Prod.mk.injEq .. ▸ hrun
      exact absurd hok (by decide)
    · split at hrun
      · obtain ⟨rfl, rfl, rfl⟩ := Prod.mk.injEq .. ▸ hrun
        exact absurd hok (by decide)
      · split at hrun
        · obtain ⟨rfl, rfl, rfl⟩ := Prod.mk.injEq .. ▸ hrun
          exact absurd hok (by decide)
        · obtain ⟨rfl, rfl, rfl⟩ := Prod.mk.injEq .. ▸ hrun
          rfl

def c8Body : Body :=
  [("completed", JVal.bool true), ("parent_id", JVal.str "p-evil"),
    ("id", JVal.str "a-evil")]

/-- C8 witness: a successful concrete PUT whose body smuggles `parent_id`
and `id`; the stored row keeps both. -/
theorem put_appointment_allowlist_frame_witness :
    (putAppointment sampleDB "u-1" "a-1" c8Body).2.1.appointments
        = sampleDB.appointments.map
          (fun r => if r.id = "a-1"
            then applyApptPatch r (buildUpdates apptAllowedFields c8Body) else r) ∧
      (applyApptPatch appt1 (buildUpdates apptAllowedFields c8Body)).id = appt1.id ∧
      (applyApptPatch appt1 (buildUpdates apptAllowedFields c8Body)).parent_id
        = appt1.parent_id :=
  have h := put_appointment_allowlist_frame sampleDB "u-1" "a-1" c8Body
    (putAppointment sampleDB "u-1" "a-1" c8Body).1
    (putAppointment sampleDB "u-1" "a-1" c8Body).2.1
    (putAppointment sampleDB "u-1" "a-1" c8Body).2.2 rfl (by decide)
  ⟨h.1, (h.2 appt1).1, (h.2 appt1).2⟩

/-- C9: `deleteRow` returns the success value `true` whenever the provider
reports no error — and the provider's filtered delete reports no error
even when no row matches the filters, in which case the table is also
left unchanged: deleting a non-existent row is not an error at the
gateway layer. -/
theorem deleteRow_succeeds (rows : List GRow) (fs : Filters) :
    (deleteRow rows fs).2 = Except.ok true ∧
      ((∀ r ∈ rows, matchesFilters r fs = false) → (deleteRow rows fs).1 = rows) := by
  constructor
  · rfl
  · intro h
    unfold deleteRow providerDelete
    exact List.filter_eq_self.mpr fun r hr => by simp [h r hr]

/-- C9 witness: deleting with a filter matching no row still reports
`true` and leaves the table as it was. -/
theorem deleteRow_succeeds_witness :
    (deleteRow [[("id", "row-1")]] [("id", "row-2")]).2 = Except.ok true ∧
      (deleteRow [[("id", "row-1")]] [("id", "row-2")]).1 = [[("id", "row-1")]] :=
  have h := deleteRow_succeeds [[("id", "row-1")]] [("id", "row-2")]
  ⟨h.1, h.2 (by decide)⟩

/-- C10: POST /api/auth/register with a password shorter than 6
characters is answered 400 "Validation failed", with the password message
among the structured details, and no call reaches the auth provider. -/
theorem register_short_password_400 (r : RegisterReq)
    (su : SignUpOutcome) (si : SignInOutcome)
    (hlen : r.password.length < 6) :
    (registerHandler r su si).1.status = 400 ∧
      (registerHandler r su si).1.error = some "Validation failed" ∧
      "Password must be at least 6 characters" ∈ (registerHandler r su si).1.details ∧
      (registerHandler r su si).2 = [] := by
  have hmem : "Password must be at least 6 characters" ∈ registerValidationErrors r := by
    unfold registerValidationErrors
    have hno : ¬ (r.password.length ≥ 6) := by omega
    simp [hno]
  have hne : (registerValidationErrors r).length ≠ 0 := by
    intro h0
    rw [List.length_eq_zero] at h0
    rw [h0] at hmem
    exact absurd hmem (List.not_mem_nil _)
  unfold registerHandler
  simp only [hne, if_pos, ne_eq, not_false_iff]
  exact ⟨trivial, trivial, hmem, trivial⟩

/-- C10 witness: a concrete five-character password is rejected before
any provider call. -/
theorem register_short_password_400_witness :
    (registerHandler ⟨"a@b.com", "short", "A"⟩
        (SignUpOutcome.ok ⟨⟨"id-1", "a@b.com", some "A"⟩, none⟩)
        (SignInOutcome.err "nope")).1.status = 400 ∧
      (registerHandler ⟨"a@b.com", "short", "A"⟩
        (SignUpOutcome.ok ⟨⟨"id-1", "a@b.com", some "A"⟩, none⟩)
        (SignInOutcome.err "nope")).1.error = some "Validation failed" ∧
      "Password must be at least 6 characters" ∈
        (registerHandler ⟨"a@b.com", "short", "A"⟩
          (SignUpOutcome.ok ⟨⟨"id-1", "a@b.com", some "A"⟩, none⟩)
          (SignInOutcome.err "nope")).1.details ∧
      (registerHandler ⟨"a@b.com", "short", "A"⟩
        (SignUpOutcome.ok ⟨⟨"id-1", "a@b.com", some "A"⟩, none⟩)
        (SignInOutcome.err "nope")).2 = [] :=
  register_short_password_400 ⟨"a@b.com", "short", "A"⟩
    (SignUpOutcome.ok ⟨⟨"id-1", "a@b.com", some "A"⟩, none⟩)
    (SignInOutcome.err "nope") (by decide)

end ParentOS
